import Mathlib

/-!
Verification of the remote STT transport and worker core
(`mpv-stt-plugin` / `mpv-stt-server` crates).

The Rust sources are shallowly embedded: pure control flow is translated
directly, machine integers become `Nat` with explicit saturation/clamping
where the source saturates or clamps, fallible calls return `Except`, and
external collaborators (the `hound` WAV parser, the C Opus codec, the
`mpv-stt-crypto` envelope, the `mpv-stt-srt` parser, the network) are
abstracted as oracle parameters, since only their call sites — not their
internals — live in the embedded source files.  File-system writes are
modelled as an explicit list of (path, contents) pairs produced by an
execution; a write is recorded exactly where the source performs one.
Wall-clock readings (`Instant::now`) are modelled as explicit millisecond
timestamps passed in program order.
-/

deriving instance DecidableEq for Except

/-- `u64::MAX`. -/
def u64Max : Nat := 2 ^ 64 - 1

/-- `Duration::as_millis().try_into().unwrap_or(u64::MAX)` — clamp a
millisecond count into `u64` range. -/
def clampU64 (n : Nat) : Nat := min n u64Max

/-- `u8::is_ascii_whitespace`: space, horizontal tab, line feed, form feed,
carriage return. -/
def isAsciiWhitespaceByte (b : Nat) : Bool :=
  b == 32 || b == 9 || b == 10 || b == 12 || b == 13

/-- Bytes of a Rust `&str`, as used by `String::as_bytes` when an error
message becomes a response body.  Characters are mapped to their code
points; all messages in the source are ASCII. -/
def strBytes (s : String) : List Nat := s.data.map Char.toNat

/-- `mpv_stt_common::MpvSttError` (crates/mpv-stt-common/src/lib.rs). -/
inductive MpvSttError
  | Io (msg : String)
  | ProcessFailed (msg : String)
  | ProcessTimeout (msg : String)
  | InvalidSrt (msg : String)
  | TranslationFailed (msg : String)
  | AudioExtractionFailed (msg : String)
  | AudioExtractionCancelled
  | Wav (msg : String)
  | SttFailed (msg : String)
  | SttCancelled
  | InvalidPath (msg : String)
  | CryptoError (msg : String)
  deriving DecidableEq, Repr

/-- `mpv_stt_srt::SrtFile`, abstracted to its list of subtitle entries
(index, start-ms, end-ms, text).  The `mpv-stt-srt` crate is not among the
embedded sources; the client code only constructs an empty file
(`SrtFile::new()`), parses one (`parse_content`, an oracle below) and saves
one, so the entry representation is otherwise opaque. -/
structure SrtFile where
  entries : List (Nat × Nat × Nat × String)
  deriving DecidableEq, Repr

/-- `SrtFile::new()` — an empty subtitle file. -/
def SrtFile.empty : SrtFile := ⟨[]⟩

/-- `StatusCode::is_success` (reqwest / http): 2xx. -/
def isSuccessStatus (status : Nat) : Bool := 200 ≤ status && status < 300

/-- Outcome of one HTTP exchange attempted by the client
(`client.post(...).send()` and the subsequent body read), as seen from
`send_request`.  `sendFail` is a transport error from `send()`;
`response status text body` is a received response: `status` its HTTP
status, `text` what `response.text()` would yield (used on error statuses),
`body` the outcome of `response.bytes()` (used on success statuses). -/
inductive AttemptNet
  | sendFail (msg : String)
  | response (status : Nat) (text : String) (body : Except String (List Nat))
  deriving DecidableEq, Repr

/-- Client configuration fields of `SttRemoteHttpConfig` consulted by the
embedded code paths. -/
structure ClientConfig where
  maxRetry : Nat
  enableEncryption : Bool
  deriving DecidableEq, Repr

/-- Oracles describing one execution environment of the client pipeline
(`RemoteHttpBackend`).

* `gen k` is the value returned by the `k`-th atomic load of
  `cancel_generation` in this execution (load 0 is the snapshot taken at
  the top of `transcribe_impl`); a concurrent `cancel_inflight` is visible
  as a change between consecutive loads.
* `compress` is the outcome of `compress_audio` (WAV read / format check /
  Opus encode — file and FFI effects).
* `net i` is the network outcome of attempt `i`.
* `encrypt` / `decrypt` are `EncryptionKey::{encrypt,decrypt}` from the
  `mpv-stt-crypto` crate (not among the embedded sources); per the spec the
  envelope fails with a `CryptoError` kind, which the call sites propagate.
* `parseSrt` is `SrtFile::parse_content` composed with
  `String::from_utf8_lossy`. -/
structure ClientEnv where
  pathOk : Bool
  gen : Nat → Nat
  compress : Except MpvSttError (List Nat)
  net : Nat → AttemptNet
  encrypt : List Nat → Except String (List Nat)
  decrypt : List Nat → Except String (List Nat)
  parseSrt : List Nat → Except MpvSttError SrtFile

/-- `RemoteHttpBackend::send_request` (remote_http.rs:161-271).
`gen0` is the caller's generation snapshot, `i` the attempt index, `ctr`
the index of the next `cancel_generation` load.  Returns the result
together with the updated load counter. -/
def send_request (cfg : ClientConfig) (env : ClientEnv) (gen0 : Nat)
    (audio : List Nat) (i ctr : Nat) :
    Except MpvSttError (List Nat) × Nat :=
  let encStep : Except MpvSttError (Bool × List Nat) :=
    if cfg.enableEncryption then
      match env.encrypt audio with
      | .error e => .error (.CryptoError e)
      | .ok p => .ok (true, p)
    else .ok (false, audio)
  match encStep with
  | .error e => (.error e, ctr)
  | .ok (encrypted, _payload) =>
    match env.net i with
    | .sendFail msg =>
        (.error (.SttFailed ("HTTP send failed: " ++ msg)), ctr)
    | .response status text body =>
      if env.gen ctr = gen0 then
        if isSuccessStatus status then
          match body with
          | .error m =>
              (.error (.SttFailed ("HTTP body read failed: " ++ m)), ctr + 1)
          | .ok data =>
            if encrypted then
              match env.decrypt data with
              | .error m => (.error (.CryptoError m), ctr + 1)
              | .ok plain => (.ok plain, ctr + 1)
            else (.ok data, ctr + 1)
        else
          (.error (.SttFailed ("Server error (" ++ toString status ++ "): "
            ++ text)), ctr + 1)
      else (.error .SttCancelled, ctr + 1)

/-- Observable trace of `send_request_with_retry`: the returned value
(`none` models the panic of `last_error.unwrap()` on a `None`), the number
of attempts performed, the number of 500 ms inter-attempt sleeps executed,
and the final `cancel_generation` load counter. -/
structure RetryTrace where
  result : Option (Except MpvSttError (List Nat))
  attempts : Nat
  sleeps : Nat
  ctr : Nat
  deriving DecidableEq, Repr

/-- The retry loop body of `send_request_with_retry` (remote_http.rs:141-158),
with `remaining` iterations left, current attempt index `i`, load counter
`ctr`, and accumulated trace fields. -/
def retryAux (cfg : ClientConfig) (env : ClientEnv) (gen0 : Nat)
    (audio : List Nat) :
    Nat → Nat → Nat → Nat → Nat → Option MpvSttError → RetryTrace
  | 0, _, ctr, att, sl, lastErr => ⟨lastErr.map Except.error, att, sl, ctr⟩
  | r + 1, i, ctr, att, sl, _lastErr =>
    if env.gen ctr = gen0 then
      match send_request cfg env gen0 audio i (ctr + 1) with
      | (.ok d, ctr2) => ⟨some (.ok d), att + 1, sl, ctr2⟩
      | (.error e, ctr2) =>
        let sl2 := if i + 1 < cfg.maxRetry then sl + 1 else sl
        retryAux cfg env gen0 audio r (i + 1) ctr2 (att + 1) sl2 (some e)
    else
      -- `lastErr` is dead here: the pre-attempt cancellation check returns.
      ⟨some (.error .SttCancelled), att, sl, ctr + 1⟩

/-- `RemoteHttpBackend::send_request_with_retry` (remote_http.rs:132-159).
`ctr` indexes the first `cancel_generation` load performed by the loop. -/
def send_request_with_retry (cfg : ClientConfig) (env : ClientEnv)
    (gen0 : Nat) (audio : List Nat) (ctr : Nat) : RetryTrace :=
  retryAux cfg env gen0 audio cfg.maxRetry 0 ctr 0 0 none

/-- Observable outcome of `transcribe_impl`: the returned value (`none`
models a panic propagated from `send_request_with_retry`) and the list of
(path, contents) SRT files written. -/
structure ClientOutcome where
  result : Option (Except MpvSttError Unit)
  writes : List (String × SrtFile)
  deriving DecidableEq, Repr

/-- `RemoteHttpBackend::transcribe_impl` (remote_http.rs:79-123).  The
output path `PathBuf::from(output_prefix).with_extension("srt")` is
modelled as `outputPrefix ++ ".srt"`, the prefix being extension-free as
the spec's `output_prefix.srt` notation assumes.  `SrtFile::save` I/O
success is taken as given (disk failures are outside the embedding). -/
def transcribe_impl (cfg : ClientConfig) (env : ClientEnv)
    (outputPrefix : String) : ClientOutcome :=
  -- `run_generation` is the snapshot `env.gen 0`; the retry loop's loads
  -- start at counter 1.
  if !env.pathOk then
    ⟨some (.error (.InvalidPath "Invalid audio path")), []⟩
  else
    match env.compress with
    | .error e => ⟨some (.error e), []⟩
    | .ok audio =>
      if audio.isEmpty then
        ⟨some (.error (.SttFailed "Audio data is empty")), []⟩
      else
        match (send_request_with_retry cfg env (env.gen 0) audio 1).result
        with
        | none => ⟨none, []⟩
        | some (.error e) => ⟨some (.error e), []⟩
        | some (.ok srtData) =>
          if env.gen (send_request_with_retry cfg env (env.gen 0) audio
              1).ctr ≠ env.gen 0 then
            ⟨some (.error .SttCancelled), []⟩
          else if srtData.all isAsciiWhitespaceByte then
            ⟨some (.ok ()), [(outputPrefix ++ ".srt", SrtFile.empty)]⟩
          else
            match env.parseSrt srtData with
            | .error e => ⟨some (.error e), []⟩
            | .ok f => ⟨some (.ok ()), [(outputPrefix ++ ".srt", f)]⟩

/-- `mpv_stt_protocol::TranscriptionJob`; `enqueue_at` (an `Instant`) is a
millisecond timestamp. -/
structure TranscriptionJob where
  request_id : Nat
  audio_data : List Nat
  duration_ms : Nat
  enqueue_at : Nat
  deriving DecidableEq, Repr

/-- `mpv_stt_protocol::JobMetrics`. -/
structure JobMetrics where
  queue_wait_ms : Nat
  inference_ms : Nat
  worker_total_ms : Nat
  deriving DecidableEq, Repr

/-- `mpv_stt_protocol::JobResult`. -/
inductive JobResult
  | Success (request_id : Nat) (srt_data : List Nat) (metrics : JobMetrics)
  | Error (request_id : Nat) (message : String)
  deriving DecidableEq, Repr

/-- The `request_id` carried by a `JobResult`. -/
def JobResult.requestId : JobResult → Nat
  | .Success rid _ _ => rid
  | .Error rid _ => rid

/-- The metrics computed by `worker_thread` (worker.rs:93-133) from the
timestamps of one loop iteration: `worker_start` is `Instant::now()` taken
at the top of the loop (before the blocking `recv`), `queue_wait_ms` is
`worker_start.duration_since(job.enqueue_at)` (saturating at zero, as
`Instant::duration_since` does), `inference_ms` brackets the
`runner.transcribe` call inside `process_job`, and `worker_total_ms` is
`worker_start.elapsed()` taken just before the result is sent.  Each is
clamped to `u64::MAX` by `try_into().unwrap_or(u64::MAX)`. -/
def workerMetrics (enqueueAt workerStart inferStart inferEnd sendAt : Nat) :
    JobMetrics where
  queue_wait_ms := clampU64 (workerStart - enqueueAt)
  inference_ms := clampU64 (inferEnd - inferStart)
  worker_total_ms := clampU64 (sendAt - workerStart)

/-- Program-order constraints on the timestamps of one worker loop
iteration: the iteration starts (`workerStart`) before `recv` returns the
job (`dequeueAt`); the job was enqueued (`enqueueAt`) before `recv` could
return it; inference happens after dequeue and before the result is sent.
`enqueueAt` is otherwise unrelated to `workerStart`: the job may have been
enqueued while the worker was still busy with a previous job. -/
def validWorkerTiming
    (enqueueAt workerStart dequeueAt inferStart inferEnd sendAt : Nat) :
    Prop :=
  workerStart ≤ dequeueAt ∧ enqueueAt ≤ dequeueAt ∧ dequeueAt ≤ inferStart ∧
    inferStart ≤ inferEnd ∧ inferEnd ≤ sendAt

/-- Observable outcome of one worker loop iteration: the result sent on the
result channel (if any) and whether `process_job` (which contains the
runner invocation) was entered. -/
structure WorkerIterOutcome where
  emitted : Option JobResult
  processed : Bool
  deriving DecidableEq, Repr

/-- One iteration of `worker_thread`'s loop after a job has been received
(worker.rs:93-145).  `cancelSets t` is the contents of the shared
cancellation set at time `t`; the source consults it exactly once, at
dequeue time (`is_cancelled`, worker.rs:107).  `processOutcome` is the
outcome of `process_job` (file I/O plus the runner call): on success the
SRT bytes and the measured `inference_ms`.  `workerStart` and `sendAt` are
the iteration's boundary timestamps (milliseconds). -/
def worker_iteration (job : TranscriptionJob) (cancelSets : Nat → List Nat)
    (dequeueAt : Nat) (processOutcome : Except String (List Nat × Nat))
    (workerStart sendAt : Nat) : WorkerIterOutcome :=
  let queueWait := clampU64 (workerStart - job.enqueue_at)
  if job.request_id ∈ cancelSets dequeueAt then ⟨none, false⟩
  else
    match processOutcome with
    | .ok (srt, inferMs) =>
        ⟨some (.Success job.request_id srt
          ⟨queueWait, inferMs, clampU64 (sendAt - workerStart)⟩), true⟩
    | .error e => ⟨some (.Error job.request_id e), true⟩

/-- `MAX_BODY_SIZE` (server.rs:25): 50 MiB. -/
def MAX_BODY_SIZE : Nat := 50 * 1024 * 1024

/-- The bytes of `"RIFF"`. -/
def riffBytes : List Nat := [82, 73, 70, 70]

/-- `u32::from_le_bytes` on a four-byte slice. -/
def readU32LE : List Nat → Nat
  | [b0, b1, b2, b3] => b0 + 256 * b1 + 65536 * b2 + 16777216 * b3
  | _ => 0

/-- Value of a hex digit, as accepted by `hex::FromHex` (both cases). -/
def hexDigitVal (c : Char) : Option Nat :=
  if '0' ≤ c ∧ c ≤ '9' then some (c.toNat - 48)
  else if 'a' ≤ c ∧ c ≤ 'f' then some (c.toNat - 97 + 10)
  else if 'A' ≤ c ∧ c ≤ 'F' then some (c.toNat - 65 + 10)
  else none

/-- Decode pairs of hex digits into bytes; odd length or a non-hex digit
fails (the semantics of `Vec::<u8>::from_hex`). -/
def hexPairsDecode : List Char → Option (List Nat)
  | [] => some []
  | [_] => none
  | c1 :: c2 :: rest =>
    match hexDigitVal c1, hexDigitVal c2, hexPairsDecode rest with
    | some h, some l, some t => some ((16 * h + l) :: t)
    | _, _, _ => none

/-- `Vec::<u8>::from_hex` on a header string. -/
def hexDecode (s : String) : Option (List Nat) := hexPairsDecode s.data

/-- Lowercase hex digit for a value below 16 (`Nat.digitChar` emits the
same lowercase digits `hex::encode` uses on this range). -/
def hexDigitChar (n : Nat) : Char := Nat.digitChar n

/-- `hex::encode`: lowercase hex, two digits per byte. -/
def hexEncode (l : List Nat) : String :=
  ⟨l.flatMap fun b => [hexDigitChar (b / 16), hexDigitChar (b % 16)]⟩

/-- `str::parse::<u64>()`: an optional leading `+`, then one or more
decimal digits, value within `u64` range. -/
def parseU64 (s : String) : Option Nat :=
  let ds := match s.data with
    | '+' :: rest => rest
    | cs => cs
  if ds.isEmpty then none
  else if ds.all Char.isDigit then
    let v := ds.foldl (fun a c => a * 10 + (c.toNat - 48)) 0
    if v ≤ u64Max then some v else none
  else none

/-- What `hound::WavReader` exposes of a parsed WAV buffer at the two call
sites in the server: the header `spec` fields and the first item of the
sample iterator.  `firstSample = none` means the iterator is empty,
`some none` that reading the first sample errors, `some (some x)` a
successfully read first sample `x`. -/
structure WavInfo where
  channels : Nat
  sampleRate : Nat
  bitsPerSample : Nat
  firstSample : Option (Option Int)
  deriving DecidableEq, Repr

/-- `validate_wav` (server.rs:458-479).  `parse` abstracts
`hound::WavReader::new` (an external crate): an error carries hound's
message, success the header fields and first sample item.  A read error on
the first sample counts as "no samples"
(`next().transpose().unwrap_or(None)`). -/
def validate_wav (parse : List Nat → Except String WavInfo)
    (data : List Nat) : Except String Unit :=
  match parse data with
  | .error e => .error ("invalid wav: " ++ e)
  | .ok spec =>
    if spec.channels ≠ 1 ∨ spec.sampleRate ≠ 16000 ∨ spec.bitsPerSample ≠ 16
    then
      .error ("unsupported wav format: " ++ toString spec.channels ++ "ch "
        ++ toString spec.sampleRate ++ "Hz "
        ++ toString spec.bitsPerSample ++ "-bit")
    else
      match spec.firstSample with
      | some (some _) => .ok ()
      | _ => .error "wav contains no samples"

/-- The framing scan of `decompress_opus` (server.rs:382-395) in isolation:
`true` iff every length-prefixed record fits in the remaining input.  The
loop runs while at least 4 bytes remain, so up to 3 trailing bytes are
ignored. -/
def framingOk (l : List Nat) : Bool :=
  if l.length < 4 then true
  else
    let len := readU32LE (l.take 4)
    let rest := l.drop 4
    if len ≤ rest.length then framingOk (rest.drop len) else false
  termination_by l.length
  decreasing_by
    simp only [List.length_drop]
    omega

/-- The record loop of `decompress_opus` (server.rs:379-421).  `d` abstracts
the C `opus_decode` call on one record's bytes (`none` models a negative
return).  Errors mirror the source's bail-outs: a record whose declared
length exceeds the remaining bytes aborts with "Invalid Opus frame length";
a failed decode aborts with a decode error; in both cases every partially
decoded sample is discarded. -/
def decodeFrames (d : List Nat → Option (List Int)) (l : List Nat) :
    Except String (List Int) :=
  if l.length < 4 then .ok []
  else
    let len := readU32LE (l.take 4)
    let rest := l.drop 4
    if len ≤ rest.length then
      match d (rest.take len) with
      | none => .error "Opus decode failed"
      | some samples =>
        match decodeFrames d (rest.drop len) with
        | .error e => .error e
        | .ok tail => .ok (samples ++ tail)
    else .error "Invalid Opus frame length"
  termination_by l.length
  decreasing_by
    simp only [List.length_drop]
    omega

/-- `decompress_opus` (server.rs:354-456): decode all records, then
synthesize a mono 16 kHz 16-bit WAV from the concatenated samples.
`synth` abstracts the `hound::WavWriter` serialization. -/
def decompress_opus (d : List Nat → Option (List Int))
    (synth : List Int → List Nat) (compressed : List Nat) :
    Except String (List Nat) :=
  (decodeFrames d compressed).map synth

/-- `ServerConfig` (server.rs:35-40), restricted to the fields the request
path consults. -/
structure ServerConfig where
  enableEncryption : Bool
  authSecret : String

/-- An incoming `POST /transcribe` request: the body bytes and the header
values the handler reads.  A header is `none` when absent or when
`HeaderValue::to_str` fails. -/
structure Request where
  body : List Nat
  requestIdHeader : Option String
  durationHeader : Option String
  authHeader : Option String
  encryptedHeader : Option String
  compressionHeader : Option String
  deriving DecidableEq, Repr

/-- Oracles for one execution of the server's request path.

* `tokenOf` — `AuthToken::from_secret` from the `mpv-stt-crypto` crate,
  which is not among the embedded sources.  Modelled from the spec: a
  32-byte value deterministically derived from the secret, compared
  byte-wise (`AuthToken`'s derived `PartialEq`).
* `decrypt` / `encrypt` — `EncryptionKey::{decrypt,encrypt}` (same crate).
* `opusFrame` / `wavSynth` — the per-record FFI decode and WAV
  serialization inside `decompress_opus`.
* `wavParse` — `hound::WavReader` as consumed by `validate_wav`.
* `enqueueOk` — whether `worker_tx.send(job)` succeeds.
* `awaitResult rid` — the outcome of `wait_for_result` for `rid`. -/
structure ServerEnv where
  tokenOf : String → List Nat
  decrypt : List Nat → Except String (List Nat)
  encrypt : List Nat → Except String (List Nat)
  opusFrame : List Nat → Option (List Int)
  wavSynth : List Int → List Nat
  wavParse : List Nat → Except String WavInfo
  enqueueOk : Bool
  awaitResult : Nat → Except String (List Nat × JobMetrics)

/-- The auth comparison of `handle_transcribe` (server.rs:188-195): header
present, valid hex, exactly 32 bytes, byte-wise equal to the expected
token. -/
def authOk (expected : List Nat) (header : Option String) : Bool :=
  match header with
  | none => false
  | some s =>
    match hexDecode s with
    | none => false
    | some v => v.length == 32 && v == expected

/-- A response produced by the handler, together with the job it enqueued
(if any) and the metrics it attached (the metric headers exist only on the
200 path). -/
structure HandlerResult where
  status : Nat
  body : List Nat
  enqueued : Option TranscriptionJob
  metrics : Option JobMetrics
  deriving DecidableEq, Repr

/-- `handle_transcribe` after audio decoding (server.rs:246-312): emptiness
check, WAV validation, job construction with `enqueue_at := now`, enqueue,
result await, optional response re-encryption, response assembly. -/
def afterDecode (cfg : ServerConfig) (env : ServerEnv)
    (rid durationMs : Nat) (encrypted : Bool) (audioData : List Nat)
    (now : Nat) : HandlerResult :=
  if audioData.isEmpty then ⟨400, strBytes "empty audio data", none, none⟩
  else
    match validate_wav env.wavParse audioData with
    | .error msg => ⟨400, strBytes msg, none, none⟩
    | .ok _ =>
      let job : TranscriptionJob := ⟨rid, audioData, durationMs, now⟩
      if !env.enqueueOk then
        ⟨500, strBytes "failed to enqueue job", none, none⟩
      else
        match env.awaitResult rid with
        | .error msg => ⟨500, strBytes msg, some job, none⟩
        | .ok (srt, m) =>
          if encrypted then
            if cfg.enableEncryption then
              match env.encrypt srt with
              | .ok enc => ⟨200, enc, some job, some m⟩
              | .error e => ⟨500, strBytes e, some job, none⟩
            else ⟨200, srt, some job, some m⟩
          else ⟨200, srt, some job, some m⟩

/-- The compression dispatch of `handle_transcribe` (server.rs:229-244),
applied to the (already decrypted) body bytes: `pcm`/`wav` pass the bytes
through; `opus` decodes the framed stream, falling back to the raw bytes
when decoding fails but they begin with `"RIFF"` (the compatibility quirk),
and answering 400 otherwise; any other label answers 400. -/
def afterDecrypt (cfg : ServerConfig) (env : ServerEnv)
    (rid durationMs : Nat) (encrypted : Bool) (compression : String)
    (audioBytes : List Nat) (now : Nat) : HandlerResult :=
  if compression = "pcm" ∨ compression = "wav" then
    afterDecode cfg env rid durationMs encrypted audioBytes now
  else if compression = "opus" then
    match decompress_opus env.opusFrame env.wavSynth audioBytes with
    | .ok d => afterDecode cfg env rid durationMs encrypted d now
    | .error e =>
      if audioBytes.take 4 = riffBytes then
        afterDecode cfg env rid durationMs encrypted audioBytes now
      else ⟨400, strBytes e, none, none⟩
  else ⟨400, strBytes "unsupported compression", none, none⟩

/-- `handle_transcribe` (server.rs:163-312): body-size cap, `x-request-id`
parse, `x-duration-ms` parse (default 0), auth check (only when the
configured secret is non-empty), `x-encrypted` flag, `x-compression`
(default `pcm`), decryption, then the decode stage and the rest of the
pipeline.  `now` is the `Instant::now()` used for `enqueue_at`. -/
def handle_transcribe (cfg : ServerConfig) (env : ServerEnv) (req : Request)
    (now : Nat) : HandlerResult :=
  if req.body.length > MAX_BODY_SIZE then
    ⟨413, strBytes "body too large", none, none⟩
  else
    match req.requestIdHeader.bind parseU64 with
    | none => ⟨400, strBytes "missing x-request-id", none, none⟩
    | some rid =>
      let durationMs := ((req.durationHeader.bind parseU64).getD 0)
      let authPass : Bool :=
        if cfg.authSecret ≠ "" then
          authOk (env.tokenOf cfg.authSecret) req.authHeader
        else true
      if !authPass then ⟨401, strBytes "unauthorized", none, none⟩
      else
        let encrypted : Bool := req.encryptedHeader == some "1"
        let compression := req.compressionHeader.getD "pcm"
        if encrypted then
          if cfg.enableEncryption then
            match env.decrypt req.body with
            | .ok d =>
                afterDecrypt cfg env rid durationMs encrypted compression d
                  now
            | .error e =>
                ⟨400, strBytes ("decrypt failed: " ++ e), none, none⟩
          else ⟨400, strBytes "encryption not enabled", none, none⟩
        else
          afterDecrypt cfg env rid durationMs encrypted compression req.body
            now

/-! Concrete execution environments used to instantiate the theorems below
on closed inputs. -/

/-- A client environment in which attempt 0 receives a body whose
decryption fails and attempt 1 receives a body that decrypts to `[7]`;
cancellation never fires. -/
def cexRetryEnv : ClientEnv where
  pathOk := true
  gen := fun _ => 0
  compress := .ok [9]
  net := fun i =>
    if i = 0 then .response 200 "" (.ok [0]) else .response 200 "" (.ok [1])
  encrypt := fun x => .ok x
  decrypt := fun x => if x = [0] then .error "bad tag" else .ok [7]
  parseSrt := fun _ => .error (.InvalidSrt "x")

/-- Client configuration with encryption on and two attempts. -/
def cexRetryCfg : ClientConfig := ⟨2, true⟩

/-- A client environment in which every attempt fails at `send()` and
cancellation never fires. -/
def failNetEnv : ClientEnv where
  pathOk := true
  gen := fun _ => 0
  compress := .ok [1]
  net := fun _ => .sendFail "x"
  encrypt := fun x => .ok x
  decrypt := fun x => .ok x
  parseSrt := fun _ => .error (.InvalidSrt "x")

/-- A client environment in which `cancel_inflight` fires between the
snapshot (load 0) and every later load of `cancel_generation`. -/
def cancelEnv : ClientEnv where
  pathOk := true
  gen := fun k => if k = 0 then 0 else 1
  compress := .ok [1]
  net := fun _ => .sendFail "x"
  encrypt := fun x => .ok x
  decrypt := fun x => .ok x
  parseSrt := fun _ => .error (.InvalidSrt "x")

/-- A client environment whose single attempt succeeds with an
all-whitespace body (one space byte). -/
def wsBodyEnv : ClientEnv where
  pathOk := true
  gen := fun _ => 0
  compress := .ok [1]
  net := fun _ => .response 200 "" (.ok [32])
  encrypt := fun x => .ok x
  decrypt := fun x => .ok x
  parseSrt := fun _ => .error (.InvalidSrt "x")

/-- A client environment whose single attempt succeeds with body `[65]`
(the letter `A`), which parses as a one-entry SRT file. -/
def srtBodyEnv : ClientEnv where
  pathOk := true
  gen := fun _ => 0
  compress := .ok [1]
  net := fun _ => .response 200 "" (.ok [65])
  encrypt := fun x => .ok x
  decrypt := fun x => .ok x
  parseSrt := fun b =>
    if b = [65] then .ok ⟨[(1, 0, 1, "A")]⟩ else .error (.InvalidSrt "x")

/-- A server environment whose oracles all succeed: the expected token is
32 bytes of 7, the WAV parser reports a compliant mono 16 kHz 16-bit file
with a first sample, and the worker answers with SRT `[65]`. -/
def srvEnvOk : ServerEnv where
  tokenOf := fun _ => List.replicate 32 7
  decrypt := fun x => .ok x
  encrypt := fun x => .ok x
  opusFrame := fun _ => some []
  wavSynth := fun _ => []
  wavParse := fun _ => .ok ⟨1, 16000, 16, some (some 0)⟩
  enqueueOk := true
  awaitResult := fun _ => .ok ([65], ⟨1, 2, 3⟩)

/-- Like `srvEnvOk` but the WAV parser reports a 44.1 kHz stereo file. -/
def srvEnvBadWav : ServerEnv :=
  { srvEnvOk with wavParse := fun _ => .ok ⟨2, 44100, 16, some (some 0)⟩ }

/-- A well-formed unencrypted `pcm` request whose body is `"RIFF"` plus one
byte. -/
def reqPcm : Request where
  body := [82, 73, 70, 70, 0]
  requestIdHeader := some "42"
  durationHeader := none
  authHeader := none
  encryptedHeader := none
  compressionHeader := some "pcm"

/-- `reqPcm` without an `x-request-id` header. -/
def reqNoId : Request := { reqPcm with requestIdHeader := none }

/-- A job with `request_id` 5 enqueued at time 0. -/
def jobW : TranscriptionJob := ⟨5, [0], 0, 0⟩

/-- `reqPcm` relabelled `x-compression: opus` (its body is not a framed
Opus stream). -/
def reqOpus : Request := { reqPcm with compressionHeader := some "opus" }

/-! Helper lemmas shared by the claim theorems. -/

theorem hexDigitVal_hexDigitChar :
    ∀ d, d < 16 → hexDigitVal (hexDigitChar d) = some d := by
  decide

theorem hexDecode_hexEncode (l : List Nat) (h : ∀ b ∈ l, b < 256) :
    hexDecode (hexEncode l) = some l := by
  induction l with
  | nil => rfl
  | cons b rest ih =>
    have hb : b < 256 := h b (by simp)
    have hrest := ih fun x hx => h x (by simp [hx])
    have h1 : hexDigitVal (hexDigitChar (b / 16)) = some (b / 16) :=
      hexDigitVal_hexDigitChar _ (by omega)
    have h2 : hexDigitVal (hexDigitChar (b % 16)) = some (b % 16) :=
      hexDigitVal_hexDigitChar _ (by omega)
    simp only [hexDecode, hexEncode, List.flatMap_cons] at hrest ⊢
    have hb2 : 16 * (b / 16) + b % 16 = b := by omega
    simp only [List.cons_append, List.nil_append, hexPairsDecode, h1, h2,
      List.append_eq, hrest, hb2]

/-- Once the retry loop has recorded an error (or has at least one
iteration to run), `last_error.unwrap()` cannot be reached with `None`. -/
theorem retryAux_isSome (cfg : ClientConfig) (env : ClientEnv) (gen0 : Nat)
    (audio : List Nat) :
    ∀ r i ctr att sl e0, 1 ≤ r ∨ e0.isSome →
      (retryAux cfg env gen0 audio r i ctr att sl e0).result ≠ none := by
  intro r
  induction r with
  | zero =>
    intro i ctr att sl e0 h
    rcases h with h | h
    · omega
    · cases e0 with
      | none => simp at h
      | some e => simp [retryAux]
  | succ n ih =>
    intro i ctr att sl e0 _h
    simp only [retryAux]
    split
    · rcases hsr : send_request cfg env gen0 audio i (ctr + 1) with ⟨res, ctr2⟩
      cases res with
      | ok d => simp [hsr]
      | error e =>
        simp only [hsr]
        exact ih (i + 1) ctr2 (att + 1) _ (some e) (Or.inr (by simp))
    · simp

/-- When no cancellation is observed and every attempt fails, the retry
loop runs all `maxRetry` attempts, sleeps between consecutive attempts,
and ends with the last attempt's error. -/
theorem retryAux_all_fail (cfg : ClientConfig) (env : ClientEnv)
    (gen0 : Nat) (audio : List Nat) (errs : Nat → MpvSttError)
    (hgen : ∀ k, env.gen k = gen0)
    (hfail : ∀ i ctr,
      (send_request cfg env gen0 audio i ctr).1 = .error (errs i)) :
    ∀ r i ctr att sl e0, 1 ≤ r → i + r = cfg.maxRetry →
      (retryAux cfg env gen0 audio r i ctr att sl e0).result
          = some (.error (errs (cfg.maxRetry - 1))) ∧
      (retryAux cfg env gen0 audio r i ctr att sl e0).attempts = att + r ∧
      (retryAux cfg env gen0 audio r i ctr att sl e0).sleeps = sl + (r - 1)
    := by
  intro r
  induction r with
  | zero => intro i ctr att sl e0 h; omega
  | succ n ih =>
    intro i ctr att sl e0 _h hidx
    rcases hsr : send_request cfg env gen0 audio i (ctr + 1) with ⟨res, ctr2⟩
    have hres : res = .error (errs i) := by
      have := hfail i (ctr + 1)
      rw [hsr] at this
      exact this
    subst hres
    rcases n.eq_zero_or_pos with hn | hn
    · subst hn
      have hi : i = cfg.maxRetry - 1 := by omega
      have hnotlt : ¬ i + 1 < cfg.maxRetry := by omega
      simp only [retryAux, hgen, if_true, hsr, hnotlt, if_false, Option.map]
      simp [hi]
    · have hlt : i + 1 < cfg.maxRetry := by omega
      have := ih (i + 1) ctr2 (att + 1) (sl + 1) (some (errs i)) hn (by omega)
      simp only [retryAux, hgen, if_true, hsr, hlt, if_true]
      refine ⟨this.1, ?_, ?_⟩
      · rw [this.2.1]; omega
      · rw [this.2.2]; omega

/-- Every branch of `transcribe_impl` either returns `Ok(())` or writes no
file. -/
theorem transcribe_impl_ok_or_silent (cfg : ClientConfig) (env : ClientEnv)
    (p : String) :
    (transcribe_impl cfg env p).result = some (.ok ()) ∨
      (transcribe_impl cfg env p).writes = [] := by
  unfold transcribe_impl
  repeat' split
  all_goals simp

/-- If the framing scan rejects the input, the record loop aborts with an
error (either the framing bail-out or an earlier decode failure). -/
theorem decodeFrames_error_of_framingOk (d : List Nat → Option (List Int))
    (l : List Nat) (h : framingOk l = false) :
    ∃ msg, decodeFrames d l = .error msg := by
  induction l using framingOk.induct with
  | case1 l hlen =>
    rw [framingOk, if_pos hlen] at h
    exact absurd h (by simp)
  | case2 l hlen len rest hfit ih =>
    rw [framingOk, if_neg hlen] at h
    simp only [if_pos hfit] at h
    obtain ⟨msg, hmsg⟩ := ih h
    rw [decodeFrames, if_neg hlen]
    simp only [if_pos hfit]
    cases hd : d (rest.take len) with
    | none => exact ⟨_, rfl⟩
    | some samples =>
      refine ⟨msg, ?_⟩
      have hmsg2 : decodeFrames d
          (List.drop (readU32LE (List.take 4 l)) (List.drop 4 l))
          = .error msg := hmsg
      rw [hmsg2]
  | case3 l hlen len rest hfit =>
    rw [decodeFrames, if_neg hlen]
    simp only [if_neg hfit]
    exact ⟨_, rfl⟩

/-- C1: the claim asserts that every successfully completed job reports
`worker_total_ms ≥ queue_wait_ms + inference_ms`.  The code computes both
`queue_wait_ms` and `worker_total_ms` from `worker_start`, the
`Instant::now()` taken at the top of the loop iteration, before the
blocking `recv`; for a job that waited in the queue while the worker was
busy (here: enqueued at t=0 ms, iteration starting at t=1000 ms, dequeue at
t=1000 ms, inference from t=1000 to t=1001, result sent at t=1001), the
reported metrics are queue_wait=1000, inference=1, worker_total=1, and the
inequality fails.  This contradicts the claim and the `JobMetrics` doc
comment ("End-to-end time inside worker thread (queue wait + inference +
post)"). -/
theorem c1_reported_metrics_violate_inequality :
    validWorkerTiming 0 1000 1000 1000 1001 1001 ∧
    workerMetrics 0 1000 1000 1001 1001 = ⟨1000, 1, 1⟩ ∧
    ¬ ((workerMetrics 0 1000 1000 1001 1001).queue_wait_ms
        + (workerMetrics 0 1000 1000 1001 1001).inference_ms
        ≤ (workerMetrics 0 1000 1000 1001 1001).worker_total_ms) :=
  ⟨by simp [validWorkerTiming], by decide, by decide⟩

/-- C2 counterexample: the claim asserts that an attempt failing with a
cryptographic error is returned immediately, with no further attempt and
no 500 ms sleep.  In `cexRetryEnv`, attempt 0 fails with
`CryptoError "bad tag"` (its response body fails to decrypt), yet the loop
performs a second attempt, executes one sleep, and returns the second
attempt's success instead of the cryptographic error. -/
theorem c2_crypto_error_retried_counterexample :
    (send_request cexRetryCfg cexRetryEnv 0 [9] 0 2).1
        = .error (.CryptoError "bad tag") ∧
    send_request_with_retry cexRetryCfg cexRetryEnv 0 [9] 1
        = ⟨some (.ok [7]), 2, 1, 5⟩ :=
  ⟨rfl, rfl⟩

/-- C2 amended: the retry loop does not inspect the error kind at all.
When no cancellation is observed, any sequence of failing attempts —
cryptographic, protocol or network errors alike — is retried until
`max_retry` attempts have run, with the 500 ms sleep between consecutive
attempts, and the last error is returned. -/
theorem c2_retry_ignores_error_kind (cfg : ClientConfig) (env : ClientEnv)
    (gen0 : Nat) (audio : List Nat) (errs : Nat → MpvSttError)
    (hgen : ∀ k, env.gen k = gen0)
    (hfail : ∀ i ctr,
      (send_request cfg env gen0 audio i ctr).1 = .error (errs i))
    (hpos : 1 ≤ cfg.maxRetry) :
    (send_request_with_retry cfg env gen0 audio 1).result
        = some (.error (errs (cfg.maxRetry - 1))) ∧
    (send_request_with_retry cfg env gen0 audio 1).attempts
        = cfg.maxRetry ∧
    (send_request_with_retry cfg env gen0 audio 1).sleeps
        = cfg.maxRetry - 1 := by
  have h := retryAux_all_fail cfg env gen0 audio errs hgen hfail
    cfg.maxRetry 0 1 0 0 none hpos (by omega)
  simpa [send_request_with_retry] using h

/-- C2 witness: with two attempts both failing at `send()`, the loop runs
both attempts, sleeps once, and returns the last error. -/
theorem c2_retry_ignores_error_kind_witness :
    (send_request_with_retry ⟨2, false⟩ failNetEnv 0 [1] 1).result
        = some (.error (.SttFailed "HTTP send failed: x")) ∧
    (send_request_with_retry ⟨2, false⟩ failNetEnv 0 [1] 1).attempts = 2 ∧
    (send_request_with_retry ⟨2, false⟩ failNetEnv 0 [1] 1).sleeps = 1 :=
  c2_retry_ignores_error_kind ⟨2, false⟩ failNetEnv 0 [1]
    (fun _ => .SttFailed "HTTP send failed: x") (fun _ => rfl)
    (fun _ _ => rfl) (by decide)

/-- C3: every execution of `transcribe_impl` that returns `SttCancelled`
writes no SRT file. -/
theorem c3_cancelled_writes_no_file (cfg : ClientConfig) (env : ClientEnv)
    (p : String)
    (h : (transcribe_impl cfg env p).result = some (.error .SttCancelled)) :
    (transcribe_impl cfg env p).writes = [] := by
  rcases transcribe_impl_ok_or_silent cfg env p with h1 | h1
  · rw [h] at h1
    exact absurd h1 (by simp)
  · exact h1

/-- C3 witness: in `cancelEnv` the pre-attempt check observes a changed
generation, `transcribe_impl` returns `SttCancelled`, and no file is
written. -/
theorem c3_cancelled_writes_no_file_witness :
    (transcribe_impl ⟨1, false⟩ cancelEnv "out").result
        = some (.error .SttCancelled) ∧
    (transcribe_impl ⟨1, false⟩ cancelEnv "out").writes = [] :=
  ⟨rfl, c3_cancelled_writes_no_file ⟨1, false⟩ cancelEnv "out" rfl⟩

/-- C4: a job whose `request_id` is in the cancellation set at dequeue time
is discarded — `process_job` (and hence the runner) is not invoked and no
result is emitted; a job not in the set at dequeue time is processed and a
result carrying its `request_id` is emitted; and the iteration's outcome
depends on the cancellation set only through its dequeue-time contents, so
a job not cancelled at dequeue runs to completion even if the set changes
afterwards. -/
theorem c4_cancel_checked_only_at_dequeue (job : TranscriptionJob)
    (sets : Nat → List Nat) (t : Nat)
    (proc : Except String (List Nat × Nat)) (ws sa : Nat) :
    (job.request_id ∈ sets t →
      worker_iteration job sets t proc ws sa = ⟨none, false⟩) ∧
    (job.request_id ∉ sets t →
      (worker_iteration job sets t proc ws sa).processed = true ∧
      ∃ r, (worker_iteration job sets t proc ws sa).emitted = some r ∧
        r.requestId = job.request_id) ∧
    (∀ sets2 : Nat → List Nat, sets2 t = sets t →
      worker_iteration job sets2 t proc ws sa
        = worker_iteration job sets t proc ws sa) := by
  refine ⟨fun h => by simp [worker_iteration, h], fun h => ?_,
    fun sets2 h2 => by simp [worker_iteration, h2]⟩
  cases proc with
  | ok pr =>
    exact ⟨by simp [worker_iteration, h],
      .Success job.request_id pr.1
        ⟨clampU64 (ws - job.enqueue_at), pr.2, clampU64 (sa - ws)⟩,
      by simp [worker_iteration, h], rfl⟩
  | error e =>
    exact ⟨by simp [worker_iteration, h],
      .Error job.request_id e, by simp [worker_iteration, h], rfl⟩

/-- C4 witness: with `request_id` 5 in the dequeue-time set the iteration
discards the job; with it absent the job is processed. -/
theorem c4_cancel_checked_only_at_dequeue_witness :
    worker_iteration jobW (fun _ => [5]) 0 (.ok ([], 3)) 0 1
        = ⟨none, false⟩ ∧
    (worker_iteration jobW (fun _ => []) 0 (.ok ([], 3)) 0 1).processed
        = true :=
  ⟨(c4_cancel_checked_only_at_dequeue jobW (fun _ => [5]) 0
      (.ok ([], 3)) 0 1).1 (by decide),
   ((c4_cancel_checked_only_at_dequeue jobW (fun _ => []) 0
      (.ok ([], 3)) 0 1).2.1 (by simp)).1⟩

/-- C10: with `max_retry = 0` the loop body never runs, `last_error`
remains `None`, and `last_error.unwrap()` panics (modelled as `none`);
with `max_retry ≥ 1` the unwrap is unreachable — the function always
produces a value. -/
theorem c10_zero_retries_panics (cfg : ClientConfig) (env : ClientEnv)
    (gen0 : Nat) (audio : List Nat) (ctr : Nat) :
    (cfg.maxRetry = 0 →
      (send_request_with_retry cfg env gen0 audio ctr).result = none) ∧
    (1 ≤ cfg.maxRetry →
      (send_request_with_retry cfg env gen0 audio ctr).result ≠ none) := by
  constructor
  · intro h
    simp [send_request_with_retry, h, retryAux]
  · intro h
    exact retryAux_isSome cfg env gen0 audio cfg.maxRetry 0 ctr 0 0 none
      (Or.inl h)

/-- C10 witness: at `max_retry = 0` the model panics; at `max_retry = 2`
it returns a value. -/
theorem c10_zero_retries_panics_witness :
    (send_request_with_retry ⟨0, false⟩ failNetEnv 0 [1] 1).result
        = none ∧
    (send_request_with_retry ⟨2, false⟩ failNetEnv 0 [1] 1).result
        ≠ none :=
  ⟨(c10_zero_retries_panics ⟨0, false⟩ failNetEnv 0 [1] 1).1 rfl,
   (c10_zero_retries_panics ⟨2, false⟩ failNetEnv 0 [1] 1).2 (by decide)⟩

/-- C9: the WAV validator accepts a buffer iff it parses as a RIFF/WAV
file with exactly one channel, a 16000 Hz sample rate, 16 bits per sample
and a readable first PCM sample, and errors on every other input; as a
consequence, an otherwise well-formed `pcm` request whose body parses as a
44.1 kHz or stereo WAV receives status 400 and enqueues no job. -/
theorem c9_validator_iff_and_400
    (parse : List Nat → Except String WavInfo) (data : List Nat) :
    (validate_wav parse data = .ok () ↔
      ∃ info, parse data = .ok info ∧ info.channels = 1 ∧
        info.sampleRate = 16000 ∧ info.bitsPerSample = 16 ∧
        ∃ x, info.firstSample = some (some x)) ∧
    (∀ (cfg : ServerConfig) (env : ServerEnv) (req : Request)
        (now rid : Nat) (info : WavInfo),
      req.body.length ≤ MAX_BODY_SIZE →
      req.requestIdHeader.bind parseU64 = some rid →
      cfg.authSecret = "" →
      req.encryptedHeader ≠ some "1" →
      req.compressionHeader = some "pcm" →
      req.body ≠ [] →
      env.wavParse req.body = .ok info →
      (info.sampleRate = 44100 ∨ info.channels = 2) →
      (handle_transcribe cfg env req now).status = 400 ∧
        (handle_transcribe cfg env req now).enqueued = none) := by
  constructor
  · constructor
    · intro h
      unfold validate_wav at h
      split at h
      · simp at h
      next info hp =>
        split at h
        · simp at h
        next hc =>
          push_neg at hc
          split at h
          next x hfs => exact ⟨info, hp, hc.1, hc.2.1, hc.2.2, x, hfs⟩
          next y hy => simp at h
    · rintro ⟨info, hp, h1, h2, h3, x, hx⟩
      simp [validate_wav, hp, h1, h2, h3, hx]
  · intro cfg env req now rid info hsize hrid hsec hencr hcomp hne hparse hbad
    have hsize2 : ¬ req.body.length > MAX_BODY_SIZE := by omega
    have hencr2 : (req.encryptedHeader == some "1") = false := by
      simpa using hencr
    have hcond : info.channels ≠ 1 ∨ info.sampleRate ≠ 16000 ∨
        info.bitsPerSample ≠ 16 := by
      rcases hbad with hb | hb
      · exact Or.inr (Or.inl (by omega))
      · exact Or.inl (by omega)
    have hmsg : validate_wav env.wavParse req.body
        = .error ("unsupported wav format: " ++ toString info.channels
          ++ "ch " ++ toString info.sampleRate ++ "Hz "
          ++ toString info.bitsPerSample ++ "-bit") := by
      simp only [validate_wav, hparse, if_pos hcond]
    have hne2 : req.body.isEmpty = false := by
      simpa [List.isEmpty_iff] using hne
    simp only [handle_transcribe, if_neg hsize2, hrid, hsec, afterDecrypt,
      afterDecode, hencr2, Option.getD, hcomp, hne2, hmsg]
    simp

/-- C8: the Opus stream decoder reads `[len:u32le][len bytes]` records
front to back, and whenever some record's declared length exceeds the
remaining bytes (the framing scan `framingOk` rejects the input), decoding
aborts with an error — so no WAV is synthesized and every partially
decoded sample is discarded, whichever per-frame decoder and WAV
serializer are plugged in. -/
theorem c8_invalid_framing_yields_error
    (d : List Nat → Option (List Int)) (synth : List Int → List Nat)
    (l : List Nat) (h : framingOk l = false) :
    ∃ msg, decompress_opus d synth l = .error msg := by
  obtain ⟨msg, hmsg⟩ := decodeFrames_error_of_framingOk d l h
  exact ⟨msg, by simp [decompress_opus, hmsg, Except.map]⟩

/-- C8 witness: the four-byte input declaring a 1-byte record with 0 bytes
remaining is rejected by the framing scan and makes `decompress_opus`
error. -/
theorem c8_invalid_framing_yields_error_witness :
    framingOk [1, 0, 0, 0] = false ∧
    ∃ msg, decompress_opus (fun _ => some []) (fun _ => []) [1, 0, 0, 0]
        = .error msg :=
  ⟨by simp [framingOk, readU32LE],
   c8_invalid_framing_yields_error (fun _ => some []) (fun _ => [])
     [1, 0, 0, 0] (by simp [framingOk, readU32LE])⟩

/-- C6: when an `x-compression: opus` body fails Opus decoding, the server
uses the (decrypted) body bytes as the WAV payload and continues exactly
as for `pcm` if they begin with `"RIFF"`, and answers 400 with the decode
error otherwise; the final conjunct ties the full handler to this decode
stage for any otherwise well-formed opus-labelled request. -/
theorem c6_opus_riff_fallback (cfg : ServerConfig) (env : ServerEnv)
    (rid dur : Nat) (encrypted : Bool) (audioBytes : List Nat) (now : Nat)
    (e : String)
    (hdec : decompress_opus env.opusFrame env.wavSynth audioBytes
      = .error e) :
    (audioBytes.take 4 = riffBytes →
      afterDecrypt cfg env rid dur encrypted "opus" audioBytes now
        = afterDecrypt cfg env rid dur encrypted "pcm" audioBytes now) ∧
    (audioBytes.take 4 ≠ riffBytes →
      afterDecrypt cfg env rid dur encrypted "opus" audioBytes now
        = ⟨400, strBytes e, none, none⟩) ∧
    (∀ req : Request,
      req.body.length ≤ MAX_BODY_SIZE →
      req.requestIdHeader.bind parseU64 = some rid →
      cfg.authSecret = "" →
      req.encryptedHeader ≠ some "1" →
      req.compressionHeader = some "opus" →
      handle_transcribe cfg env req now
        = afterDecrypt cfg env rid ((req.durationHeader.bind parseU64).getD 0)
            false "opus" req.body now) := by
  refine ⟨fun h => ?_, fun h => ?_, fun req hsize hrid hsec hencr hcomp => ?_⟩
  · simp [afterDecrypt, hdec, h]
  · simp [afterDecrypt, hdec, h]
  · have hsize2 : ¬ req.body.length > MAX_BODY_SIZE := by omega
    have hencr2 : (req.encryptedHeader == some "1") = false := by
      simpa using hencr
    simp [handle_transcribe, if_neg hsize2, hrid, hsec, hencr2, hcomp]

/-- C6 witness: a `"RIFF"` body mislabelled `opus` is processed like
`pcm`; a non-RIFF body with bad framing receives 400; and the handler on
`reqOpus` reduces to the decode stage. -/
theorem c6_opus_riff_fallback_witness :
    afterDecrypt ⟨false, ""⟩ srvEnvOk 42 0 false "opus" riffBytes 0
        = afterDecrypt ⟨false, ""⟩ srvEnvOk 42 0 false "pcm" riffBytes 0 ∧
    afterDecrypt ⟨false, ""⟩ srvEnvOk 42 0 false "opus" [1, 0, 0, 0] 0
        = ⟨400, strBytes "Invalid Opus frame length", none, none⟩ ∧
    handle_transcribe ⟨false, ""⟩ srvEnvOk reqOpus 0
        = afterDecrypt ⟨false, ""⟩ srvEnvOk 42 0 false "opus" reqOpus.body 0
    :=
  ⟨(c6_opus_riff_fallback ⟨false, ""⟩ srvEnvOk 42 0 false riffBytes 0
      "Invalid Opus frame length"
      (by simp [decompress_opus, decodeFrames, readU32LE, Except.map,
        riffBytes])).1
     (by decide),
   (c6_opus_riff_fallback ⟨false, ""⟩ srvEnvOk 42 0 false [1, 0, 0, 0] 0
      "Invalid Opus frame length"
      (by simp [decompress_opus, decodeFrames, readU32LE, Except.map])).2.1
     (by decide),
   (c6_opus_riff_fallback ⟨false, ""⟩ srvEnvOk 42 0 false [1, 0, 0, 0] 0
      "Invalid Opus frame length"
      (by simp [decompress_opus, decodeFrames, readU32LE, Except.map])).2.2
     reqOpus (by decide) (by decide) rfl (by decide) rfl⟩

/-- C5 amended: when the configured secret is non-empty, every request
that passes the body-size cap and carries a parseable `x-request-id` and
whose `x-auth-token` fails the auth comparison (absent, invalid hex, wrong
length, or unequal to the expected token — the `authOk` conjuncts) receives
401 with no job enqueued; the hex encoding of the expected token passes the
comparison; and when the secret is empty the handler ignores the
`x-auth-token` header entirely. -/
theorem c5_auth_amended (cfg : ServerConfig) (env : ServerEnv)
    (req : Request) (now rid : Nat) :
    (cfg.authSecret ≠ "" →
      req.body.length ≤ MAX_BODY_SIZE →
      req.requestIdHeader.bind parseU64 = some rid →
      authOk (env.tokenOf cfg.authSecret) req.authHeader = false →
      handle_transcribe cfg env req now
        = ⟨401, strBytes "unauthorized", none, none⟩) ∧
    (authOk (env.tokenOf cfg.authSecret) none = false) ∧
    (∀ s, hexDecode s = none →
      authOk (env.tokenOf cfg.authSecret) (some s) = false) ∧
    (∀ s v, hexDecode s = some v →
      v.length ≠ 32 ∨ v ≠ env.tokenOf cfg.authSecret →
      authOk (env.tokenOf cfg.authSecret) (some s) = false) ∧
    ((∀ b ∈ env.tokenOf cfg.authSecret, b < 256) →
      (env.tokenOf cfg.authSecret).length = 32 →
      authOk (env.tokenOf cfg.authSecret)
        (some (hexEncode (env.tokenOf cfg.authSecret))) = true) ∧
    (cfg.authSecret = "" → ∀ t1 t2 : Option String,
      handle_transcribe cfg env { req with authHeader := t1 } now
        = handle_transcribe cfg env { req with authHeader := t2 } now) := by
  refine ⟨fun hsec hsize hrid hauth => ?_, rfl, fun s h => ?_,
    fun s v h hne => ?_, fun hb hlen => ?_, fun hsec t1 t2 => ?_⟩
  · have hsize2 : ¬ req.body.length > MAX_BODY_SIZE := by omega
    simp [handle_transcribe, if_neg hsize2, hrid, hsec, hauth]
  · simp [authOk, h]
  · rcases hne with h1 | h1 <;> simp [authOk, h, h1]
  · simp [authOk, hexDecode_hexEncode _ hb, hlen]
  · simp [handle_transcribe, hsec]

/-- C7: when the retry loop returns a successful response body and the
final cancellation check passes, `transcribe_impl` writes an empty SRT
file at `output_prefix.srt` and returns `Ok` if every body byte is ASCII
whitespace (including the empty body), saves the parsed SRT there when the
body parses, and propagates the parse error writing nothing otherwise. -/
theorem c7_success_body_handling (cfg : ClientConfig) (env : ClientEnv)
    (p : String) (audio srtData : List Nat)
    (hpath : env.pathOk = true)
    (hcomp : env.compress = .ok audio)
    (hne : audio ≠ [])
    (hok : (send_request_with_retry cfg env (env.gen 0) audio 1).result
      = some (.ok srtData))
    (hgen : env.gen (send_request_with_retry cfg env (env.gen 0) audio 1).ctr
      = env.gen 0) :
    (srtData.all isAsciiWhitespaceByte = true →
      transcribe_impl cfg env p
        = ⟨some (.ok ()), [(p ++ ".srt", SrtFile.empty)]⟩) ∧
    (srtData.all isAsciiWhitespaceByte = false →
      (∀ f, env.parseSrt srtData = .ok f →
        transcribe_impl cfg env p = ⟨some (.ok ()), [(p ++ ".srt", f)]⟩) ∧
      (∀ e, env.parseSrt srtData = .error e →
        transcribe_impl cfg env p = ⟨some (.error e), []⟩)) := by
  have hne2 : audio.isEmpty = false := by
    simpa [List.isEmpty_iff] using hne
  refine ⟨fun hws => ?_, fun hws => ⟨fun f hf => ?_, fun e he => ?_⟩⟩
  · simp [transcribe_impl, hpath, hcomp, hne2, hok, hgen, hws]
  · simp [transcribe_impl, hpath, hcomp, hne2, hok, hgen, hws, hf]
  · simp [transcribe_impl, hpath, hcomp, hne2, hok, hgen, hws, he]

/-- C5 counterexample: the claim asserts that with a non-empty secret,
every request with an absent (or wrong) `x-auth-token` receives 401.  But
the handler parses `x-request-id` before checking auth: a request with no
auth token and no request id receives 400, not 401. -/
theorem c5_counterexample :
    reqNoId.authHeader = none ∧ ("s" : String) ≠ "" ∧
    handle_transcribe ⟨false, "s"⟩ srvEnvOk reqNoId 0
        = ⟨400, strBytes "missing x-request-id", none, none⟩ ∧
    (handle_transcribe ⟨false, "s"⟩ srvEnvOk reqNoId 0).status ≠ 401 :=
  ⟨rfl, by decide, rfl, by decide⟩

/-- C5 witness: a well-formed request without a token is refused 401 under
secret `"s"`; the hex-encoded expected token passes the comparison; and
with an empty secret the response does not depend on the token header. -/
theorem c5_auth_amended_witness :
    handle_transcribe ⟨false, "s"⟩ srvEnvOk reqPcm 0
        = ⟨401, strBytes "unauthorized", none, none⟩ ∧
    authOk (srvEnvOk.tokenOf "s")
        (some (hexEncode (srvEnvOk.tokenOf "s"))) = true ∧
    handle_transcribe ⟨false, ""⟩ srvEnvOk
        { reqPcm with authHeader := some "zz" } 0
      = handle_transcribe ⟨false, ""⟩ srvEnvOk
        { reqPcm with authHeader := none } 0 :=
  ⟨(c5_auth_amended ⟨false, "s"⟩ srvEnvOk reqPcm 0 42).1 (by decide)
     (by decide) (by decide) rfl,
   (c5_auth_amended ⟨false, "s"⟩ srvEnvOk reqPcm 0 42).2.2.2.2.1
     (by decide) (by decide),
   (c5_auth_amended ⟨false, ""⟩ srvEnvOk reqPcm 0 42).2.2.2.2.2 rfl
     (some "zz") none⟩

/-- C7 witness: a single-space body yields an empty SRT file at
`out.srt`; the body `"A"` parses and the parsed file is saved there. -/
theorem c7_success_body_handling_witness :
    transcribe_impl ⟨1, false⟩ wsBodyEnv "out"
        = ⟨some (.ok ()), [("out.srt", SrtFile.empty)]⟩ ∧
    transcribe_impl ⟨1, false⟩ srtBodyEnv "out"
        = ⟨some (.ok ()), [("out.srt", ⟨[(1, 0, 1, "A")]⟩)]⟩ :=
  ⟨(c7_success_body_handling ⟨1, false⟩ wsBodyEnv "out" [1] [32] rfl rfl
      (by decide) rfl rfl).1 rfl,
   ((c7_success_body_handling ⟨1, false⟩ srtBodyEnv "out" [1] [65] rfl rfl
      (by decide) rfl rfl).2 rfl).1 ⟨[(1, 0, 1, "A")]⟩ rfl⟩

/-- C9 witness: a compliant parse is accepted via the iff, and the
44.1 kHz stereo parse makes the handler answer 400 with nothing
enqueued. -/
theorem c9_validator_iff_and_400_witness :
    validate_wav (fun _ => .ok ⟨1, 16000, 16, some (some 0)⟩) [] = .ok () ∧
    (handle_transcribe ⟨false, ""⟩ srvEnvBadWav reqPcm 0).status = 400 ∧
    (handle_transcribe ⟨false, ""⟩ srvEnvBadWav reqPcm 0).enqueued = none :=
  ⟨(c9_validator_iff_and_400 (fun _ => .ok ⟨1, 16000, 16, some (some 0)⟩)
      []).1.mpr ⟨_, rfl, rfl, rfl, rfl, 0, rfl⟩,
   (c9_validator_iff_and_400 (fun _ => .ok ⟨1, 16000, 16, some (some 0)⟩)
      []).2 ⟨false, ""⟩ srvEnvBadWav reqPcm 0 42 ⟨2, 44100, 16, some (some 0)⟩
     (by decide) (by decide) rfl (by decide) rfl (by decide) rfl
     (Or.inl rfl) |>.1,
   (c9_validator_iff_and_400 (fun _ => .ok ⟨1, 16000, 16, some (some 0)⟩)
      []).2 ⟨false, ""⟩ srvEnvBadWav reqPcm 0 42 ⟨2, 44100, 16, some (some 0)⟩
     (by decide) (by decide) rfl (by decide) rfl (by decide) rfl
     (Or.inl rfl) |>.2⟩
